import Mathlib

/-!
Verification of the sm-model preprocessing pipeline (ee_parser.py and
preprocessing.py) against its natural-language specification.

Shallow embedding conventions:
* Calendar dates are days-since-epoch naturals; `pd.date_range(start, end,
  freq='D')` becomes `dateRange start end`.
* A pandas cell is `Option ℚ`: `none` is NaN / missing, `some q` a numeric
  value.  `pd.to_numeric(..., errors='coerce')` is modelled by the raw query
  already delivering `Option ℚ` cells (unparseable values arrive as `none`).
* A dataframe is `Daily`: a list of named columns plus date-keyed rows whose
  value list is aligned with the column list.
* The Earth-Engine service (`ee.ImageCollection...getRegion(...).getInfo()`)
  is the spec's black-box remote query: a fetch receives
  `Option (List (ℕ × List (Option ℚ)))` — `some raw` is the list of returned
  observation rows (timestamp day, cell per requested band) and `none` is the
  path taken by the bare `except:` in `ee_to_df` (HttpError / EEException, or
  the `@timeout(600)` exception raised while the query is in flight).
  The id/longitude/latitude columns that `ee_to_df` drops are not carried.
* Python exceptions that the repository throws or catches are `PyError`.
-/

inductive PyError where
  | keyError
  | attributeError
  | typeError
  | unboundLocalError
deriving DecidableEq

/-- Raw rows returned by the remote point query: (timestamp as day, one cell
per requested band). -/
abbrev Raw := List (ℕ × List (Option ℚ))

/-- A date-indexed dataframe: column names plus rows of (day, cells). -/
structure Daily where
  cols : List String
  rows : List (ℕ × List (Option ℚ))
deriving DecidableEq

/-- Number of days in the inclusive range [s, e] (0 when s > e). -/
def dayCount (s e : ℕ) : ℕ := e + 1 - s

/-- The daily calendar `pd.date_range(start=s, end=e, freq='D')`. -/
def dateRange (s e : ℕ) : List ℕ := (List.range (dayCount s e)).map (fun k => s + k)

/-- First row value stored under key `d` (pandas index lookup). -/
def firstLookup (rows : List (ℕ × List (Option ℚ))) (d : ℕ) : Option (List (Option ℚ)) :=
  (rows.find? (fun r => r.1 == d)).map Prod.snd

/-- Position of column `c` in the column list (pandas column lookup; the
repository only accesses columns that exist). -/
def colIdx (cols : List String) (c : String) : ℕ := cols.findIdx (fun x => x == c)

/-- Values of column `c`, one per row. -/
def colVals (df : Daily) (c : String) : List (Option ℚ) :=
  df.rows.map (fun r => r.2.getD (colIdx df.cols c) none)

/-- `df[name] = vals` for a fresh column name: appended on the right. -/
def addCol (df : Daily) (c : String) (vals : List (Option ℚ)) : Daily :=
  ⟨df.cols ++ [c], List.zipWith (fun r v => (r.1, r.2 ++ [v])) df.rows vals⟩

/-- `df.rename(columns={old : new})`. -/
def renameCol (df : Daily) (old new : String) : Daily :=
  ⟨df.cols.map (fun c => if c == old then new else c), df.rows⟩

/-- `df[c] = f(df[c])` applied cellwise to a single column (NaN stays NaN). -/
def scaleCol (df : Daily) (c : String) (f : ℚ → ℚ) : Daily :=
  ⟨df.cols, df.rows.map (fun r =>
    (r.1, r.2.set (colIdx df.cols c) (Option.map f (r.2.getD (colIdx df.cols c) none))))⟩

/-- Whole-dataframe arithmetic such as `lst * 0.02 - 273.15`: applied to every
cell of every column (NaN stays NaN). -/
def scaleDF (df : Daily) (f : ℚ → ℚ) : Daily :=
  ⟨df.cols, df.rows.map (fun r => (r.1, r.2.map (Option.map f)))⟩

/-- `df.drop(names, axis=1)`. -/
def dropCols (df : Daily) (names : List String) : Daily :=
  let keep := (List.range df.cols.length).filter (fun i => !(names.contains (df.cols.getD i "")))
  ⟨keep.map (fun i => df.cols.getD i ""), df.rows.map (fun r => (r.1, keep.map (fun i => r.2.getD i none)))⟩

/-- Pandas cell addition: NaN propagates. -/
def oadd : Option ℚ → Option ℚ → Option ℚ
  | some a, some b => some (a + b)
  | _, _ => none

/-- Pandas cell subtraction: NaN propagates. -/
def osub : Option ℚ → Option ℚ → Option ℚ
  | some a, some b => some (a - b)
  | _, _ => none

/-- Pandas cell division: NaN propagates; division by zero is an undefined
value (spec §4.3), modelled as missing. -/
def odiv : Option ℚ → Option ℚ → Option ℚ
  | some a, some b => if b = 0 then none else some (a / b)
  | _, _ => none

/-- Python comparison `value > c` on a cell: NaN compares False. -/
def pyGT (v : Option ℚ) (c : ℚ) : Bool :=
  match v with
  | some x => decide (c < x)
  | none => false

/-- The running-counter loop of `dry_days` (ee_parser.py lines 155-164):
on `value > 0` the integer counter resets to 0 and 0 is appended, otherwise
the counter increments and is appended.  The appended value always equals the
new counter, so the emitted head doubles as the next accumulator. -/
def dryStreakAux (counter : ℕ) : List (Option ℚ) → List ℕ
  | [] => []
  | v :: vs =>
    let c := if pyGT v 0 then 0 else counter + 1
    c :: dryStreakAux c vs

/-- `dry_days` (ee_parser.py lines 155-167): scans column `P` in row order and
stores the streak, cast by `astype('float')`, as column `DD`. -/
def dry_days (df : Daily) : Daily :=
  addCol df "DD" ((dryStreakAux 0 (colVals df "P")).map (fun n : ℕ => some (n : ℚ)))

/-! ### Pandas `Series.interpolate(method='linear', limit, limit_direction='both')`

Modelled after pandas' `interpolate_1d`: first the full positional linear
interpolation (`np.interp`, which holds the first/last valid value constant
beyond the ends), then NaNs farther than `limit` positions from a valid value
in both directions are preserved. -/

/-- Greatest index `j < i` holding a valid (non-NaN) value. -/
def prevValidIdx (xs : List (Option ℚ)) (i : ℕ) : Option ℕ :=
  (List.range i).reverse.find? (fun j => (xs.getD j none).isSome)

/-- Least index `j > i` holding a valid (non-NaN) value. -/
def nextValidIdx (xs : List (Option ℚ)) (i : ℕ) : Option ℕ :=
  (List.range xs.length).find? (fun j => decide (i < j) && (xs.getD j none).isSome)

/-- Positional linear interpolation between valid indices `p < i < n`. -/
def interpLin (xs : List (Option ℚ)) (p n i : ℕ) : Option ℚ :=
  match xs.getD p none, xs.getD n none with
  | some yp, some yn => some (yp + (yn - yp) * ((i : ℚ) - (p : ℚ)) / ((n : ℚ) - (p : ℚ)))
  | _, _ => none

/-- Value the unlimited linear interpolation would place at index `i`:
between two valid neighbours the linear value, before the first (after the
last) valid value that value held constant. -/
def interpFull (xs : List (Option ℚ)) (i : ℕ) : Option ℚ :=
  match prevValidIdx xs i, nextValidIdx xs i with
  | some p, some n => interpLin xs p n i
  | some p, none => xs.getD p none
  | none, some n => xs.getD n none
  | none, none => none

/-- With `limit_direction='both'`, a NaN is filled when some valid value lies
within `limit` positions of it on either side. -/
def canFill (limit : ℕ) (xs : List (Option ℚ)) (i : ℕ) : Bool :=
  (List.range xs.length).any (fun j =>
    (xs.getD j none).isSome &&
      ((decide (j ≤ i) && decide (i - j ≤ limit)) || (decide (i ≤ j) && decide (j - i ≤ limit))))

/-- `Series.interpolate(method='linear', limit=limit, limit_direction='both')`. -/
def interpolateBoth (limit : ℕ) (xs : List (Option ℚ)) : List (Option ℚ) :=
  (List.range xs.length).map (fun i =>
    match xs.getD i none with
    | some v => some v
    | none => if canFill limit xs i then interpFull xs i else none)

/-- `add_vegetation_index` (ee_parser.py lines 172-176): writes
`(df[band_1] - df[band_2]) / (df[band_1] + df[band_2])` into column `name`,
then (when enabled) interpolates it linearly, limit 30, both directions. -/
def add_vegetation_index (df : Daily) (name band_1 band_2 : String)
    (interpolate_index : Bool) : Daily :=
  let v := List.zipWith (fun a b => odiv (osub a b) (oadd a b))
    (colVals df band_1) (colVals df band_2)
  addCol df name (if interpolate_index then interpolateBoth 30 v else v)

/-- `df[~df.index.duplicated()]` (ee_parser.py line 149): keep only the first
row carrying each index value. -/
def dedupFirstAux (seen : List ℕ) : List (ℕ × List (Option ℚ)) → List (ℕ × List (Option ℚ))
  | [] => []
  | r :: rs =>
    if r.1 ∈ seen then dedupFirstAux seen rs
    else r :: dedupFirstAux (r.1 :: seen) rs

def dedupFirst (rows : List (ℕ × List (Option ℚ))) : List (ℕ × List (Option ℚ)) :=
  dedupFirstAux [] rows

/-- `ee_to_df` (ee_parser.py lines 114-153).  In the source the function takes
(ee_arr, lon, lat, buffer, int_limit, bands, start_date, end_date); here the
collection handle, the point and the buffer are folded into the black-box
`query` result (see the header comment), so the embedding takes the bands,
the interpolation limit, the date range and the query outcome.

Success path (the `try` block): per band the column is coerced to numeric
(already reflected in the `Option ℚ` cells) and, when `int_limit > 0`,
linearly interpolated with that limit in both directions; the
`drop_duplicates(keep='first')` call on line 135 discards its result and so
has no effect; the timestamp becomes the date index and the id/time/
coordinate columns are dropped (not carried here).  Failure path (the bare
`except:`): the band list is logged — the returned Bool — and the frame
becomes `pd.DataFrame(columns=bands)`.  On both paths the index is then
deduplicated keeping first occurrences and the frame is reindexed onto the
daily calendar [start_date, end_date], missing days becoming all-NaN rows. -/
def ee_to_df (bands : List String) (int_limit : ℕ) (start_date end_date : ℕ)
    (query : Option Raw) : Daily × Bool :=
  match query with
  | some raw =>
    let cols := (List.range bands.length).map (fun j =>
      let c := raw.map (fun r => r.2.getD j none)
      if 0 < int_limit then interpolateBoth int_limit c else c)
    let rows1 := (List.range raw.length).map (fun i =>
      ((raw.getD i (0, [])).1, cols.map (fun c => c.getD i none)))
    let dd := dedupFirst rows1
    (⟨bands, (List.range (dayCount start_date end_date)).map (fun k =>
      (start_date + k, (firstLookup dd (start_date + k)).getD (bands.map (fun _ => none))))⟩,
     false)
  | none =>
    (⟨bands, (List.range (dayCount start_date end_date)).map (fun k =>
      (start_date + k, bands.map (fun _ => none)))⟩,
     true)

/-! ### `assemble_variables` (ee_parser.py lines 179-263)

Each requested variable family fetches its raw bands through `ee_to_df`,
applies the family's unit conversion and derivation, and contributes one
dataframe.  The query argument is keyed by the band list each branch
requests.  All frames produced by `ee_to_df` are indexed by the same daily
calendar. -/

/-- MODIS land-surface temperature: buffer 5, interpolation limit 5;
`lst * 0.02 - 273.15` rescales the whole frame, then the band is renamed. -/
def lst_df (s e : ℕ) (q : Option Raw) : Daily :=
  renameCol (scaleDF (ee_to_df ["LST_Day_1km"] 5 s e q).1 (fun x => x * 0.02 - 273.15))
    "LST_Day_1km" "TS"

/-- Sentinel-1 VV backscatter: no conversion. -/
def s1_vv_df (s e : ℕ) (q : Option Raw) : Daily :=
  (ee_to_df ["VV"] 0 s e q).1

/-- Sentinel-1 VH backscatter: no conversion. -/
def s1_vh_df (s e : ℕ) (q : Option Raw) : Daily :=
  (ee_to_df ["VH"] 0 s e q).1

/-- Sentinel-2 NDVI: fetch B4/B8, derive the index, drop the raw bands. -/
def s2_ndvi_df (s e : ℕ) (interpolate_index : Bool) (q : Option Raw) : Daily :=
  dropCols (add_vegetation_index (ee_to_df ["B4", "B8"] 0 s e q).1
    "NDVI" "B8" "B4" interpolate_index) ["B4", "B8"]

/-- Sentinel-2 NDWI: fetch B8A/B11, derive the index, drop the raw bands. -/
def s2_ndwi_df (s e : ℕ) (interpolate_index : Bool) (q : Option Raw) : Daily :=
  dropCols (add_vegetation_index (ee_to_df ["B8A", "B11"] 0 s e q).1
    "NDWI" "B8A" "B11" interpolate_index) ["B8A", "B11"]

/-- ERA-5 air temperature: Kelvin to Celsius, renamed to TA. -/
def era5_t_df (s e : ℕ) (q : Option Raw) : Daily :=
  renameCol (scaleCol (ee_to_df ["mean_2m_air_temperature"] 0 s e q).1
    "mean_2m_air_temperature" (fun x => x - 273.15)) "mean_2m_air_temperature" "TA"

/-- ERA-5 precipitation: metres to millimetres, renamed to P, then the
dry-day streak column is derived (ee_parser.py lines 249-254). -/
def era5_p_df (s e : ℕ) (q : Option Raw) : Daily :=
  dry_days (renameCol (scaleCol (ee_to_df ["total_precipitation"] 0 s e q).1
    "total_precipitation" (fun x => x * 1000)) "total_precipitation" "P")

/-- The `dataframes` list accumulated by the branch chain of
`assemble_variables`, in source order.  The S1 branches sit inside their own
try/except whose only escape is the in-flight timeout, which the embedding
folds into a `none` query, so each contributes whenever requested. -/
def assemble_frames (variable_list : List String) (s e : ℕ) (interpolate_index : Bool)
    (q : List String → Option Raw) : List Daily :=
  (if "TS" ∈ variable_list then [lst_df s e (q ["LST_Day_1km"])] else []) ++
  (if "VV" ∈ variable_list then [s1_vv_df s e (q ["VV"])] else []) ++
  (if "VH" ∈ variable_list then [s1_vh_df s e (q ["VH"])] else []) ++
  (if "NDVI" ∈ variable_list then [s2_ndvi_df s e interpolate_index (q ["B4", "B8"])] else []) ++
  (if "NDWI" ∈ variable_list then [s2_ndwi_df s e interpolate_index (q ["B8A", "B11"])] else []) ++
  (if "TA" ∈ variable_list then [era5_t_df s e (q ["mean_2m_air_temperature"])] else []) ++
  (if "P" ∈ variable_list then [era5_p_df s e (q ["total_precipitation"])] else [])

/-- `pd.merge(left, right, on=['Date'], how='outer')`: date-keyed full join.
All frames merged by this pipeline share the same daily-calendar index, in
which case the key list below is exactly that common index. -/
def outerMerge (l r : Daily) : Daily :=
  let keys := l.rows.map Prod.fst ++
    (r.rows.map Prod.fst).filter (fun d => !((l.rows.map Prod.fst).contains d))
  ⟨l.cols ++ r.cols,
   List.flatten (keys.map (fun d =>
     match l.rows.filter (fun x => x.1 == d), r.rows.filter (fun x => x.1 == d) with
     | [], [] => []
     | ls, [] => ls.map (fun x => (d, x.2 ++ r.cols.map (fun _ => none)))
     | [], rs => rs.map (fun x => (d, l.cols.map (fun _ => none) ++ x.2))
     | ls, rs => List.flatten (ls.map (fun x => rs.map (fun y => (d, x.2 ++ y.2))))))⟩

/-- `assemble_variables` merge step (ee_parser.py lines 256-263).  With at
least one frame, `reduce` left-folds the outer merge and the site id column
is attached (carried here as the paired String).  With zero frames `reduce`
raises TypeError, the handler prints 'No variables specified.', and then
`return df` reads the never-assigned local `df`: UnboundLocalError. -/
def assemble_variables (variable_list : List String) (s e : ℕ) (interpolate_index : Bool)
    (point_id : String) (q : List String → Option Raw) : Except PyError (Daily × String) :=
  match assemble_frames variable_list s e interpolate_index q with
  | [] => .error .unboundLocalError
  | f :: fs => .ok (fs.foldl outerMerge f, point_id)

/-! ### `compile_data` (preprocessing.py lines 17-72) -/

/-- Python `~x` on a bool: `~True = -2`, `~False = -1` (both truthy). -/
def pyNotBitwise (b : Bool) : Int := if b then -2 else -1

/-- The filtering loop of preprocessing.py lines 36-38, with CPython
semantics: `variable_list` aliases `settings['variables']`, so the loop walks
the very list it removes from — the iterator index `i` still advances after a
removal, skipping the element that slid into the removed slot.  `fuel` only
bounds the recursion and exceeds the possible number of iterations. -/
def remove_loop (gtCols : List String) (fuel : ℕ) (l : List String) (i : ℕ) : List String :=
  match fuel with
  | 0 => l
  | fuel' + 1 =>
    if h : i < l.length then
      let v := l.get ⟨i, h⟩
      if v ∈ gtCols then remove_loop gtCols fuel' (l.erase v) (i + 1)
      else remove_loop gtCols fuel' l (i + 1)
    else l

/-- preprocessing.py lines 34-38: the variable list actually fetched.  The
guard is `if ~settings['overwrite_variables']`, a bitwise not, and the loop
condition `var in df_sm.columns and var in variable_list` — the second
conjunct always holds for the element under the iterator. -/
def select_variable_list (overwrite_variables : Bool) (req_variables gtCols : List String) :
    List String :=
  if pyNotBitwise overwrite_variables ≠ 0 then remove_loop gtCols (req_variables.length + 1) req_variables 0
  else req_variables

/-- One row of the ground-truth (ICOS/ISMN) table: site id, date and the
remaining numeric cells. -/
structure GtRow where
  site : String
  date : ℕ
  vals : List (Option ℚ)
deriving DecidableEq

/-- Registry entry for one site; a `none` field is a key missing from the
site-info document, so reading it raises KeyError. -/
structure SiteMeta where
  longitude : Option ℚ
  latitude : Option ℚ
  start_date : Option ℕ
  end_date : Option ℕ
deriving DecidableEq

def getKey {α : Type} : Option α → Except PyError α
  | some v => .ok v
  | none => .error .keyError

/-- `df_ee.reindex(pd.date_range(start, end, freq='D'))` in the driver
(preprocessing.py lines 52-53): one row per calendar day, days absent from
the frame becoming all-NaN rows of width `w`. -/
def driver_reindex (rows : List (ℕ × List (Option ℚ))) (w s e : ℕ) :
    List (ℕ × List (Option ℚ)) :=
  (dateRange s e).map (fun d => (d, (firstLookup rows d).getD (List.replicate w none)))

/-- `pd.merge(df_ee, df_sm_subset, how='left', left_index=True,
right_index=True)` (preprocessing.py line 54): every left row is kept, paired
with each matching right row, or padded with `rw` NaN cells when the right
table has no row for that date. -/
def merge_left_bydate (l r : List (ℕ × List (Option ℚ))) (rw : ℕ) :
    List (ℕ × List (Option ℚ)) :=
  List.flatten (l.map (fun a =>
    match r.filter (fun b => b.1 == a.1) with
    | [] => [(a.1, a.2 ++ List.replicate rw none)]
    | ms => ms.map (fun b => (a.1, a.2 ++ b.2))))

/-- The body of the driver's per-site `try` block (preprocessing.py lines
47-57): read the four registry fields (KeyError when absent), assemble the
remote variables, reindex them onto the registry date range, and left-merge
the site's ground-truth rows onto that calendar.  `gtW` is the width of the
ground-truth table; the SITE_x/SITE_y resolution of lines 55-56 is absorbed
by keying the output on the station id. -/
def process_site (variable_list : List String) (interpolate_index : Bool)
    (Q : String → List String → Option Raw) (gt : List GtRow) (gtW : ℕ)
    (station : String) (meta : SiteMeta) :
    Except PyError (List (ℕ × List (Option ℚ))) := do
  let subset := gt.filter (fun r => r.site == station)
  let _lon ← getKey meta.longitude
  let _lat ← getKey meta.latitude
  let sd ← getKey meta.start_date
  let ed ← getKey meta.end_date
  let asm ← assemble_variables variable_list sd ed interpolate_index station (Q station)
  let dfEE := asm.1
  .ok (merge_left_bydate (driver_reindex dfEE.rows dfEE.cols.length sd ed)
    (subset.map (fun r => (r.date, r.vals))) gtW)

/-- One iteration of the driver's station loop (preprocessing.py lines
43-61): a successful site appends its rows to the accumulator, a KeyError or
AttributeError skips the site (`except (KeyError, AttributeError): pass`,
lines 58-59), and every other exception escapes. -/
def compile_step (variable_list : List String) (interpolate_index : Bool)
    (Q : String → List String → Option Raw) (gt : List GtRow) (gtW : ℕ)
    (acc : List (String × List (ℕ × List (Option ℚ)))) (sm : String × SiteMeta) :
    Except PyError (List (String × List (ℕ × List (Option ℚ)))) :=
  match process_site variable_list interpolate_index Q gt gtW sm.1 sm.2 with
  | .ok rows => .ok (acc ++ [(sm.1, rows)])
  | .error PyError.keyError => .ok acc
  | .error PyError.attributeError => .ok acc
  | .error e => .error e

/-- `compile_data` (preprocessing.py lines 17-72): filter the variable list,
then fold over the site registry accumulating per-site outputs.  The final
fixed column re-ordering and the CSV write (lines 63-72) do not change the
accumulated rows and are not modelled. -/
def compile_data (overwrite_variables : Bool) (req_variables gtCols : List String) (gtW : ℕ)
    (interpolate_index : Bool) (Q : String → List String → Option Raw) (gt : List GtRow)
    (registry : List (String × SiteMeta)) :
    Except PyError (List (String × List (ℕ × List (Option ℚ)))) :=
  let variable_list := select_variable_list overwrite_variables req_variables gtCols
  registry.foldlM (compile_step variable_list interpolate_index Q gt gtW) []

/-! ### Helper lemmas -/

theorem getD_of_lt {α : Type} (l : List α) (i : ℕ) (d : α) (h : i < l.length) :
    l.getD i d = l.get ⟨i, h⟩ := by
  rw [List.getD_eq_getElem?_getD, List.getElem?_eq_getElem h]
  rfl

theorem getD_range_map {α : Type} (f : ℕ → α) (n i : ℕ) (d : α) (h : i < n) :
    (((List.range n).map f).getD i d) = f i := by
  rw [List.getD_eq_getElem?_getD, List.getElem?_map, List.getElem?_range h]
  rfl

theorem getD_map_of_lt {α β : Type} (f : α → β) (l : List α) (i : ℕ) (d : β) (d0 : α)
    (h : i < l.length) :
    (l.map f).getD i d = f (l.getD i d0) := by
  rw [List.getD_eq_getElem?_getD, List.getElem?_map, List.getElem?_eq_getElem h,
    getD_of_lt l i d0 h]
  rfl

theorem getD_zipWith {α β γ : Type} (f : α → β → γ) (l1 : List α) (l2 : List β)
    (i : ℕ) (d : γ) (d1 : α) (d2 : β) (h1 : i < l1.length) (h2 : i < l2.length) :
    (List.zipWith f l1 l2).getD i d = f (l1.getD i d1) (l2.getD i d2) := by
  induction l1 generalizing l2 i with
  | nil => simp at h1
  | cons a l1 ih =>
    cases l2 with
    | nil => simp at h2
    | cons b l2 =>
      cases i with
      | zero => rfl
      | succ j =>
        simp only [List.zipWith_cons_cons, List.getD_cons_succ]
        exact ih l2 j (by simpa using h1) (by simpa using h2)

theorem dateRange_length (s e : ℕ) : (dateRange s e).length = dayCount s e := by
  simp [dateRange]

theorem mem_dateRange (s e d : ℕ) (h : s ≤ e) :
    d ∈ dateRange s e ↔ s ≤ d ∧ d ≤ e := by
  simp only [dateRange, List.mem_map, List.mem_range, dayCount]
  constructor
  · rintro ⟨k, hk, rfl⟩
    omega
  · rintro ⟨h1, h2⟩
    exact ⟨d - s, by omega, by omega⟩

theorem dateRange_pairwise (s e : ℕ) : List.Pairwise (· < ·) (dateRange s e) := by
  refine List.Pairwise.map _ (fun a b hab => ?_) (List.pairwise_lt_range _)
  omega

theorem dateRange_nodup (s e : ℕ) : (dateRange s e).Nodup :=
  (dateRange_pairwise s e).nodup

theorem dateRange_chain (s e : ℕ) : List.Chain' (· < ·) (dateRange s e) :=
  (dateRange_pairwise s e).chain'

theorem mem_dedupFirstAux (seen : List ℕ) (l : List (ℕ × List (Option ℚ)))
    (x : ℕ × List (Option ℚ)) (hx : x ∈ dedupFirstAux seen l) : x ∈ l := by
  induction l generalizing seen with
  | nil => simp [dedupFirstAux] at hx
  | cons r rs ih =>
    by_cases h : r.1 ∈ seen
    · simp only [dedupFirstAux, if_pos h] at hx
      exact List.mem_cons_of_mem _ (ih _ hx)
    · simp only [dedupFirstAux, if_neg h, List.mem_cons] at hx
      rcases hx with rfl | hx
      · exact List.mem_cons_self _ _
      · exact List.mem_cons_of_mem _ (ih _ hx)

theorem firstLookup_eq_none (rows : List (ℕ × List (Option ℚ))) (d : ℕ)
    (h : ∀ r ∈ rows, r.1 ≠ d) : firstLookup rows d = none := by
  unfold firstLookup
  rw [List.find?_eq_none.mpr]
  · rfl
  · intro x hx
    simpa using h x hx

theorem ee_to_df_cols (bands : List String) (L s e : ℕ) (q : Option Raw) :
    (ee_to_df bands L s e q).1.cols = bands := by
  cases q <;> rfl

theorem ee_to_df_index (bands : List String) (L s e : ℕ) (q : Option Raw) :
    (ee_to_df bands L s e q).1.rows.map Prod.fst = dateRange s e := by
  cases q <;> simp [ee_to_df, dateRange, List.map_map]

theorem ee_to_df_length (bands : List String) (L s e : ℕ) (q : Option Raw) :
    (ee_to_df bands L s e q).1.rows.length = dayCount s e := by
  cases q <;> simp [ee_to_df]

theorem ee_to_df_unobserved (bands : List String) (L s e : ℕ) (raw : Raw) (d : ℕ)
    (h1 : s ≤ d) (h2 : d ≤ e) (h3 : ∀ r ∈ raw, r.1 ≠ d) :
    (ee_to_df bands L s e (some raw)).1.rows.getD (d - s) (0, []) =
      (d, bands.map (fun _ => none)) := by
  have hlt : d - s < dayCount s e := by unfold dayCount; omega
  unfold ee_to_df
  simp only
  rw [getD_range_map _ _ _ _ hlt]
  have hsd : s + (d - s) = d := by omega
  rw [hsd]
  have hkeys : ∀ r ∈ dedupFirst ((List.range raw.length).map (fun i =>
      ((raw.getD i (0, [])).1, ((List.range bands.length).map (fun j =>
        let c := raw.map (fun r => r.2.getD j none)
        if 0 < L then interpolateBoth L c else c)).map (fun c => c.getD i none)))), r.1 ≠ d := by
    intro r hr
    have hr2 := mem_dedupFirstAux _ _ _ hr
    rw [List.mem_map] at hr2
    obtain ⟨i, hi, rfl⟩ := hr2
    rw [List.mem_range] at hi
    have : raw.getD i (0, []) ∈ raw := by
      rw [getD_of_lt raw i (0, []) hi]
      exact List.get_mem raw i hi
    exact h3 (raw.getD i (0, [])) this
  rw [firstLookup_eq_none _ _ hkeys]
  rfl

theorem dryStreakAux_length (c : ℕ) (ps : List (Option ℚ)) :
    (dryStreakAux c ps).length = ps.length := by
  induction ps generalizing c with
  | nil => rfl
  | cons v vs ih => simp [dryStreakAux, ih]

theorem dryStreakAux_getD (ps : List (Option ℚ)) (c : ℕ) (i : ℕ) (h : i < ps.length) :
    (dryStreakAux c ps).getD i 0 =
      if pyGT (ps.getD i none) 0 then 0
      else (if i = 0 then c else (dryStreakAux c ps).getD (i - 1) 0) + 1 := by
  induction ps generalizing c i with
  | nil => simp at h
  | cons v vs ih =>
    cases i with
    | zero =>
      simp only [dryStreakAux, List.getD_cons_zero]
      by_cases hv : pyGT v 0 <;> simp [hv]
    | succ j =>
      have hj : j < vs.length := by simpa using h
      simp only [dryStreakAux, List.getD_cons_succ]
      rw [ih _ j hj]
      cases j with
      | zero =>
        simp only [Nat.succ_sub_one, List.getD_cons_zero]
        by_cases hv : pyGT v 0 <;> simp [hv]
      | succ k =>
        simp only [Nat.succ_sub_one, List.getD_cons_succ]
        rfl

theorem filter_key_length_le_one (r : List (ℕ × List (Option ℚ))) (d : ℕ)
    (hnd : (r.map Prod.fst).Nodup) :
    (r.filter (fun b => b.1 == d)).length ≤ 1 := by
  induction r with
  | nil => simp
  | cons b r ih =>
    simp only [List.map_cons, List.nodup_cons] at hnd
    by_cases hb : b.1 = d
    · have : r.filter (fun x => x.1 == d) = [] := by
        rw [List.filter_eq_nil_iff]
        intro a ha
        simp only [beq_iff_eq]
        intro had
        exact hnd.1 (by
          rw [List.mem_map]
          exact ⟨a, ha, by rw [had, hb]⟩)
      simp [List.filter_cons, hb, this]
    · simpa [List.filter_cons, hb] using ih hnd.2

theorem merge_left_bydate_length (l r : List (ℕ × List (Option ℚ))) (rw : ℕ)
    (hnd : (r.map Prod.fst).Nodup) :
    (merge_left_bydate l r rw).length = l.length := by
  induction l with
  | nil => rfl
  | cons a l ih =>
    unfold merge_left_bydate at ih ⊢
    simp only [List.map_cons, List.flatten_cons, List.length_append, ih]
    have hle := filter_key_length_le_one r a.1 hnd
    cases hfil : r.filter (fun b => b.1 == a.1) with
    | nil => simp; omega
    | cons m ms =>
      rw [hfil] at hle
      simp only [List.length_cons] at hle
      have : ms = [] := List.length_eq_zero.mp (by omega)
      subst this
      simp; omega

theorem merge_left_bydate_mem (l r : List (ℕ × List (Option ℚ))) (rw : ℕ)
    (a : ℕ × List (Option ℚ)) (p : ℕ × List (Option ℚ))
    (ha : a ∈ l) (hp : p ∈ r) (hkey : p.1 = a.1) :
    (a.1, a.2 ++ p.2) ∈ merge_left_bydate l r rw := by
  unfold merge_left_bydate
  rw [List.mem_flatten]
  refine ⟨_, List.mem_map.mpr ⟨a, ha, rfl⟩, ?_⟩
  have hpf : p ∈ r.filter (fun b => b.1 == a.1) :=
    List.mem_filter.mpr ⟨hp, by simp [hkey]⟩
  cases hfil : r.filter (fun b => b.1 == a.1) with
  | nil => rw [hfil] at hpf; simp at hpf
  | cons m ms =>
    rw [hfil] at hpf
    simp only
    exact List.mem_map.mpr ⟨p, hpf, rfl⟩

theorem interpFull_isSome (xs : List (Option ℚ)) (i j : ℕ) (hj : j < xs.length)
    (hvalid : (xs.getD j none).isSome = true) (hne : j ≠ i) :
    (interpFull xs i).isSome = true := by
  rcases Nat.lt_or_ge j i with hlt | hge
  · have hprev : (prevValidIdx xs i).isSome = true := by
      rw [prevValidIdx, List.find?_isSome]
      exact ⟨j, by rw [List.mem_reverse, List.mem_range]; exact hlt, hvalid⟩
    obtain ⟨p, hp⟩ := Option.isSome_iff_exists.mp hprev
    have hpv : (xs.getD p none).isSome = true := by
      rw [prevValidIdx] at hp
      have hq := List.find?_some hp
      simpa using hq
    unfold interpFull
    rw [hp]
    cases hn : nextValidIdx xs i with
    | none => exact hpv
    | some n =>
      have hnv : (xs.getD n none).isSome = true := by
        have hq := List.find?_some hn
        simp only [Bool.and_eq_true] at hq
        exact hq.2
      obtain ⟨yp, hyp⟩ := Option.isSome_iff_exists.mp hpv
      obtain ⟨yn, hyn⟩ := Option.isSome_iff_exists.mp hnv
      show (interpLin xs p n i).isSome = true
      unfold interpLin
      rw [hyp, hyn]
      rfl
  · have hgt : i < j := by omega
    have hnext : (nextValidIdx xs i).isSome = true := by
      rw [nextValidIdx, List.find?_isSome]
      refine ⟨j, List.mem_range.mpr hj, ?_⟩
      rw [Bool.and_eq_true]
      exact ⟨decide_eq_true hgt, hvalid⟩
    obtain ⟨n, hn⟩ := Option.isSome_iff_exists.mp hnext
    have hnv : (xs.getD n none).isSome = true := by
      have hq := List.find?_some hn
      simp only [Bool.and_eq_true] at hq
      exact hq.2
    unfold interpFull
    rw [hn]
    cases hp : prevValidIdx xs i with
    | none => exact hnv
    | some p =>
      have hpv : (xs.getD p none).isSome = true := by
        rw [prevValidIdx] at hp
        have hq := List.find?_some hp
        simpa using hq
      obtain ⟨yp, hyp⟩ := Option.isSome_iff_exists.mp hpv
      obtain ⟨yn, hyn⟩ := Option.isSome_iff_exists.mp hnv
      show (interpLin xs p n i).isSome = true
      unfold interpLin
      rw [hyp, hyn]
      rfl

theorem except_bind_congr {ε α β : Type} (x : Except ε α) (f g : α → Except ε β)
    (h : ∀ a, f a = g a) : (x >>= f) = (x >>= g) := by
  cases x with
  | error e => rfl
  | ok a => exact h a

theorem compile_step_keyError (vl : List String) (ii : Bool)
    (Q : String → List String → Option Raw) (gt : List GtRow) (gtW : ℕ)
    (acc : List (String × List (ℕ × List (Option ℚ)))) (b : String) (mb : SiteMeta)
    (hmb : mb.longitude = none) :
    compile_step vl ii Q gt gtW acc (b, mb) = .ok acc := by
  have hps : process_site vl ii Q gt gtW b mb = .error PyError.keyError := by
    unfold process_site
    rw [hmb]
    rfl
  unfold compile_step
  rw [hps]

/-! ### Claim theorems -/

/-- C1 (counterexample): the per-site Driver output does not in general have
as many rows as the ground-truth table has for the site.  Registry range
[0, 2] (three calendar days), a ground-truth table with two rows (days 0 and
1), and no remote rows at all: the merge of preprocessing.py line 54 keeps
the reindexed remote calendar on the left, so the output has three rows, not
two. -/
theorem driver_merge_rowcount_counterexample :
    (merge_left_bydate (driver_reindex ([] : List (ℕ × List (Option ℚ))) 1 0 2)
        [(0, [some 1]), (1, [some 1])] 1).length ≠
      ([(0, [some (1 : ℚ)]), (1, [some 1])] : List (ℕ × List (Option ℚ))).length := by
  decide

/-- C1 (amended): the Driver's per-site output has exactly one row per day of
the registry range [start_date, end_date] — its length is the calendar
length, whatever remote rows were available — and every ground-truth row
whose date lies inside that range is preserved in the output with its values
attached behind the (possibly all-missing) remote values; ground-truth rows
dated outside the registry range are dropped.  Requires one ground-truth row
per date, which a daily ground table satisfies. -/
theorem driver_merge_calendar_rowcount :
    ∀ (ee gt : List (ℕ × List (Option ℚ))) (w rw s e : ℕ),
      (gt.map Prod.fst).Nodup →
      (merge_left_bydate (driver_reindex ee w s e) gt rw).length = dayCount s e ∧
      (∀ p ∈ gt, s ≤ p.1 → p.1 ≤ e →
        (p.1, (firstLookup ee p.1).getD (List.replicate w none) ++ p.2) ∈
          merge_left_bydate (driver_reindex ee w s e) gt rw) := by
  intro ee gt w rw s e hnd
  constructor
  · rw [merge_left_bydate_length _ _ _ hnd]
    unfold driver_reindex
    rw [List.length_map, dateRange_length]
  · intro p hp h1 h2
    apply merge_left_bydate_mem _ _ _
      (p.1, (firstLookup ee p.1).getD (List.replicate w none)) p _ hp rfl
    unfold driver_reindex
    rw [List.mem_map]
    exact ⟨p.1, (mem_dateRange s e p.1 (le_trans h1 h2)).mpr ⟨h1, h2⟩, rfl⟩

theorem driver_merge_calendar_rowcount_witness :
    (merge_left_bydate (driver_reindex ([] : List (ℕ × List (Option ℚ))) 1 0 2)
      [(1, [some 5])] 1).length = dayCount 0 2 ∧
    ((1 : ℕ), (firstLookup ([] : List (ℕ × List (Option ℚ))) 1).getD
        (List.replicate 1 none) ++ [some (5 : ℚ)]) ∈
      merge_left_bydate (driver_reindex ([] : List (ℕ × List (Option ℚ))) 1 0 2)
        [(1, [some 5])] 1 := by
  obtain ⟨h1, h2⟩ := driver_merge_calendar_rowcount [] [(1, [some 5])] 1 1 0 2 (by decide)
  exact ⟨h1, h2 (1, [some 5]) (by decide) (by decide) (by decide)⟩

/-- C2: for every fetch — also a failed one — and every valid range
start ≤ end, the index of `ee_to_df`'s result is exactly the daily calendar
from start to end inclusive: strictly increasing, without duplicates, and
containing a day iff it lies in [start, end]. -/
theorem fetcher_index_is_daily_calendar :
    ∀ (bands : List String) (limit s e : ℕ) (q : Option Raw) (d : ℕ), s ≤ e →
      (ee_to_df bands limit s e q).1.rows.map Prod.fst = dateRange s e ∧
      List.Chain' (· < ·) ((ee_to_df bands limit s e q).1.rows.map Prod.fst) ∧
      ((ee_to_df bands limit s e q).1.rows.map Prod.fst).Nodup ∧
      (d ∈ (ee_to_df bands limit s e q).1.rows.map Prod.fst ↔ s ≤ d ∧ d ≤ e) := by
  intro bands limit s e q d hse
  rw [ee_to_df_index]
  exact ⟨rfl, dateRange_chain s e, dateRange_nodup s e, mem_dateRange s e d hse⟩

theorem fetcher_index_is_daily_calendar_witness :
    (ee_to_df ["B"] 0 3 5 none).1.rows.map Prod.fst = dateRange 3 5 ∧
    List.Chain' (· < ·) ((ee_to_df ["B"] 0 3 5 none).1.rows.map Prod.fst) ∧
    ((ee_to_df ["B"] 0 3 5 none).1.rows.map Prod.fst).Nodup ∧
    ((4 : ℕ) ∈ (ee_to_df ["B"] 0 3 5 none).1.rows.map Prod.fst ↔ 3 ≤ 4 ∧ 4 ≤ 5) :=
  fetcher_index_is_daily_calendar ["B"] 0 3 5 none 4 (by decide)

/-- C3 (counterexample): a failed fetch does not return a table with no
rows.  For bands `["B"]` over [0, 1] the failure path still reindexes onto
the daily calendar (ee_parser.py lines 148-151), so the result has two rows,
not zero. -/
theorem fetcher_failure_rowcount_counterexample :
    (ee_to_df ["B"] 0 0 1 none).1.rows.length ≠ 0 := by
  decide

/-- C3 (amended): on query failure (or a timeout raised inside the query
step) `ee_to_df` returns — rather than raising — a table with exactly the
requested band columns whose rows are the full daily calendar with every
value missing, and logs the band list that failed. -/
theorem fetcher_failure_full_calendar_nan :
    ∀ (bands : List String) (limit s e : ℕ),
      (ee_to_df bands limit s e none).1.cols = bands ∧
      (ee_to_df bands limit s e none).1.rows.map Prod.fst = dateRange s e ∧
      (∀ r ∈ (ee_to_df bands limit s e none).1.rows, r.2 = bands.map (fun _ => none)) ∧
      (ee_to_df bands limit s e none).2 = true := by
  intro bands limit s e
  refine ⟨ee_to_df_cols _ _ _ _ _, ee_to_df_index _ _ _ _ _, ?_, rfl⟩
  intro r hr
  simp only [ee_to_df, List.mem_map] at hr
  obtain ⟨k, hk, rfl⟩ := hr
  rfl

theorem fetcher_failure_full_calendar_nan_witness :
    (ee_to_df ["B"] 0 0 1 none).1.cols = ["B"] ∧
    (ee_to_df ["B"] 0 0 1 none).1.rows.map Prod.fst = dateRange 0 1 ∧
    ((0 : ℕ), ([none] : List (Option ℚ))).2 = ["B"].map (fun _ => none) ∧
    (ee_to_df ["B"] 0 0 1 none).2 = true := by
  obtain ⟨h1, h2, h3, h4⟩ := fetcher_failure_full_calendar_nan ["B"] 0 0 1
  exact ⟨h1, h2, h3 (0, [none]) (by decide), h4⟩

/-- C4 (code bug): when the requested variable list resolves to zero fetched
tables, `assemble_variables` catches the TypeError from `reduce` but then
executes `return df` with `df` never assigned, raising UnboundLocalError;
`compile_data` catches only KeyError and AttributeError, so the whole
multi-site run crashes instead of treating the site as "no data".  Both
sites here have complete metadata; the second is never reached. -/
theorem compile_zero_variables_crash :
    assemble_variables [] 0 1 false "A" (fun _ => none) =
      .error PyError.unboundLocalError ∧
    compile_data false [] ["SITE", "SWC"] 1 false (fun _ _ => none) []
        [("A", ⟨some 0, some 0, some 0, some 1⟩), ("C", ⟨some 0, some 0, some 0, some 1⟩)] =
      .error PyError.unboundLocalError :=
  ⟨rfl, rfl⟩

/-- C5 (code bug): the guard `if ~settings['overwrite_variables']` uses the
bitwise not, which is truthy for both booleans, so the filter also runs when
`overwrite_variables` is true and removes the already-present variable `TS`;
moreover the loop iterates over the very list it mutates, so with
`overwrite_variables` false and both `TS` and `TA` present, `TA` survives. -/
theorem overwrite_variables_filter_eval :
    select_variable_list true ["TS"] ["SITE", "SWC", "TS"] = [] ∧
    select_variable_list false ["TS", "TA"] ["SITE", "SWC", "TS", "TA"] = ["TA"] := by
  constructor <;> rfl

/-- C6: the dry-day streak output has the length of the input precipitation
series; its value is 0 on any row whose precipitation is > 0 and otherwise
is the previous row's value plus 1 (0 before the first row); on
precipitation [0, 0, 5, 0, 0, 0] the streak is [1, 2, 0, 1, 2, 3]. -/
theorem dry_day_streak_spec :
    (∀ ps : List (Option ℚ), (dryStreakAux 0 ps).length = ps.length) ∧
    (∀ (ps : List (Option ℚ)) (i : ℕ), i < ps.length →
      (dryStreakAux 0 ps).getD i 0 =
        if pyGT (ps.getD i none) 0 then 0
        else (if i = 0 then 0 else (dryStreakAux 0 ps).getD (i - 1) 0) + 1) ∧
    colVals (dry_days ⟨["P"], [(0, [some 0]), (1, [some 0]), (2, [some 5]),
        (3, [some 0]), (4, [some 0]), (5, [some 0])]⟩) "DD" =
      [some 1, some 2, some 0, some 1, some 2, some 3] :=
  ⟨fun ps => dryStreakAux_length 0 ps,
   fun ps i h => dryStreakAux_getD ps 0 i h,
   by decide⟩

theorem dry_day_streak_spec_witness :
    (dryStreakAux 0 [some 0, some 2]).length = 2 ∧
    (dryStreakAux 0 [some 0, some 2]).getD 1 0 =
      if pyGT (([some 0, some 2] : List (Option ℚ)).getD 1 none) 0 then 0
      else (if (1 : ℕ) = 0 then 0 else (dryStreakAux 0 [some 0, some 2]).getD 0 0) + 1 :=
  ⟨dry_day_streak_spec.1 [some 0, some 2],
   dry_day_streak_spec.2.1 [some 0, some 2] 1 (by decide)⟩

/-- C7 (counterexample): on band_a = [2, 4], band_b = [1, 1] the vegetation
index is not [1/3, 3/4]: the second row is (4 - 1)/(4 + 1) = 3/5 = 0.6, not
0.75 as the spec's expected output states. -/
theorem vegetation_index_expected_counterexample :
    colVals (add_vegetation_index ⟨["band_a", "band_b"],
        [(0, [some 2, some 1]), (1, [some 4, some 1])]⟩ "VI" "band_a" "band_b" false) "VI" ≠
      [some (1/3 : ℚ), some (3/4 : ℚ)] := by
  have step : colVals (add_vegetation_index ⟨["band_a", "band_b"],
      [(0, [some 2, some 1]), (1, [some 4, some 1])]⟩ "VI" "band_a" "band_b" false) "VI" =
      [odiv (osub (some 2) (some 1)) (oadd (some 2) (some 1)),
       odiv (osub (some 4) (some 1)) (oadd (some 4) (some 1))] := rfl
  rw [step]
  norm_num [odiv, osub, oadd]

/-- C7 (amended): the vegetation/water index is computed per row as
(band_a − band_b)/(band_a + band_b) — with a zero denominator undefined —
and on band_a = [2, 4], band_b = [1, 1] it yields [1/3, 3/5], i.e.
[0.333..., 0.6]. -/
theorem vegetation_index_values :
    (∀ a b : ℚ, odiv (osub (some a) (some b)) (oadd (some a) (some b)) =
      if a + b = 0 then none else some ((a - b) / (a + b))) ∧
    colVals (add_vegetation_index ⟨["band_a", "band_b"],
        [(0, [some 2, some 1]), (1, [some 4, some 1])]⟩ "VI" "band_a" "band_b" false) "VI" =
      [some (1/3 : ℚ), some (3/5 : ℚ)] := by
  refine ⟨fun a b => ?_, ?_⟩
  · simp [odiv, osub, oadd]
  · have step : colVals (add_vegetation_index ⟨["band_a", "band_b"],
        [(0, [some 2, some 1]), (1, [some 4, some 1])]⟩ "VI" "band_a" "band_b" false) "VI" =
        [odiv (osub (some 2) (some 1)) (oadd (some 2) (some 1)),
         odiv (osub (some 4) (some 1)) (oadd (some 4) (some 1))] := rfl
    rw [step]
    norm_num [odiv, osub, oadd]

/-- C8 (counterexample): interpolation does not fill gaps of missing days of
the returned daily table.  With limit 5 and observations on days 0 and 2
only, day 1 — an interior one-day calendar gap between available
observations, well within the limit — is still missing in the result,
because `ee_to_df` interpolates the raw observation rows before the daily
reindex introduces the missing day. -/
theorem interpolation_daily_gap_counterexample :
    (ee_to_df ["B"] 5 0 2 (some [(0, [some 1]), (2, [some 3])])).1.rows =
      [(0, [some 1]), (1, [none]), (2, [some 3])] ∧
    (ee_to_df ["B"] 5 0 2 (some [(0, [some 1]), (2, [some 3])])).1.rows ≠
      [(0, [some 1]), (1, [some 2]), (2, [some 3])] := by
  constructor
  · decide
  · decide

/-- C8 (amended): the interpolation acts on the fetched observation rows
before the daily reindex: a missing observation value with some valid
observation within `limit` positions of it (in either direction, row
positions not days) is filled, while a calendar day carrying no observation
row at all is introduced as missing by the reindex and is never filled,
whatever the limit. -/
theorem interpolation_rowwise_spec :
    (∀ (limit : ℕ) (xs : List (Option ℚ)) (i j : ℕ),
      i < xs.length → xs.getD i none = none →
      j < xs.length → (xs.getD j none).isSome = true →
      (j ≤ i ∧ i - j ≤ limit ∨ i ≤ j ∧ j - i ≤ limit) →
      ((interpolateBoth limit xs).getD i none).isSome = true) ∧
    (∀ (bands : List String) (limit s e : ℕ) (raw : Raw) (d : ℕ),
      s ≤ d → d ≤ e → (∀ r ∈ raw, r.1 ≠ d) →
      (ee_to_df bands limit s e (some raw)).1.rows.getD (d - s) (0, []) =
        (d, bands.map (fun _ => none))) := by
  constructor
  · intro limit xs i j hi hnone hj hvalid hdist
    have hne : j ≠ i := by
      intro hji
      rw [hji, hnone] at hvalid
      simp at hvalid
    have hfill : canFill limit xs i = true := by
      unfold canFill
      rw [List.any_eq_true]
      refine ⟨j, List.mem_range.mpr hj, ?_⟩
      rw [hvalid]
      rw [Bool.true_and]
      simp only [Bool.or_eq_true, Bool.and_eq_true, decide_eq_true_eq]
      exact hdist
    unfold interpolateBoth
    rw [getD_range_map _ _ _ _ hi]
    simp only [hnone]
    rw [if_pos hfill]
    exact interpFull_isSome xs i j hj hvalid hne
  · intro bands limit s e raw d h1 h2 h3
    exact ee_to_df_unobserved bands limit s e raw d h1 h2 h3

theorem interpolation_rowwise_spec_witness :
    ((interpolateBoth 1 [some 1, none, some 3]).getD 1 none).isSome = true ∧
    (ee_to_df ["B"] 5 0 2 (some [(0, [some 1])])).1.rows.getD 1 (0, []) =
      (1, ["B"].map (fun _ => none)) :=
  ⟨interpolation_rowwise_spec.1 1 [some 1, none, some 3] 1 0 (by decide) (by decide)
      (by decide) (by decide) (Or.inl ⟨by decide, by decide⟩),
   interpolation_rowwise_spec.2 ["B"] 5 0 2 [(0, [some 1])] 1 (by decide) (by decide)
      (by decide)⟩

/-- C10: the dry-day streak treats a missing precipitation value as a dry
day — the counter increments on it instead of resetting or propagating the
missing value — and, because `ee_to_df` reindexes the precipitation series
onto the full daily calendar before `dry_days` runs (ee_parser.py lines
250-253), a calendar day with no precipitation observation at all carries a
missing P value and hence also extends the streak. -/
theorem dry_streak_nan_extends :
    (∀ (ps : List (Option ℚ)) (i : ℕ), i < ps.length → ps.getD i none = none →
      (dryStreakAux 0 ps).getD i 0 =
        (if i = 0 then 0 else (dryStreakAux 0 ps).getD (i - 1) 0) + 1) ∧
    (∀ (s e : ℕ) (raw : Raw) (d : ℕ), s ≤ d → d ≤ e → (∀ r ∈ raw, r.1 ≠ d) →
      (colVals (era5_p_df s e (some raw)) "P").getD (d - s) (some 0) = none) := by
  constructor
  · intro ps i hi hnone
    rw [dryStreakAux_getD ps 0 i hi, hnone]
    rfl
  · intro s e raw d h1 h2 h3
    have hlt : d - s < dayCount s e := by unfold dayCount; omega
    have hbase := ee_to_df_unobserved ["total_precipitation"] 0 s e raw d h1 h2 h3
    have hblen : (ee_to_df ["total_precipitation"] 0 s e (some raw)).1.rows.length =
        dayCount s e := ee_to_df_length _ _ _ _ _
    have hXrows : (renameCol (scaleCol (ee_to_df ["total_precipitation"] 0 s e (some raw)).1
        "total_precipitation" (fun x => x * 1000)) "total_precipitation" "P").rows.getD
          (d - s) (0, []) = (d, [none]) := by
      show ((ee_to_df ["total_precipitation"] 0 s e (some raw)).1.rows.map _).getD
        (d - s) (0, []) = (d, [none])
      rw [getD_map_of_lt _ _ _ _ (0, []) (by rw [hblen]; exact hlt), hbase]
      rfl
    have hXlen : (renameCol (scaleCol (ee_to_df ["total_precipitation"] 0 s e (some raw)).1
        "total_precipitation" (fun x => x * 1000)) "total_precipitation" "P").rows.length =
        dayCount s e := by
      show ((ee_to_df ["total_precipitation"] 0 s e (some raw)).1.rows.map _).length = _
      rw [List.length_map, hblen]
    have hvlen : (((dryStreakAux 0 (colVals (renameCol (scaleCol
        (ee_to_df ["total_precipitation"] 0 s e (some raw)).1
        "total_precipitation" (fun x => x * 1000)) "total_precipitation" "P") "P")).map
          (fun n : ℕ => some (n : ℚ)))).length = dayCount s e := by
      rw [List.length_map, dryStreakAux_length]
      unfold colVals
      rw [List.length_map, hXlen]
    unfold era5_p_df dry_days
    show ((List.zipWith _ _ _).map _).getD (d - s) (some 0) = none
    rw [getD_map_of_lt _ _ _ _ (0, []) (by rw [List.length_zipWith, hXlen, hvlen]; simpa using hlt)]
    rw [getD_zipWith _ _ _ _ _ (0, []) none (by rw [hXlen]; exact hlt) (by rw [hvlen]; exact hlt)]
    rw [hXrows]
    rfl

theorem dry_streak_nan_extends_witness :
    (dryStreakAux 0 [some 1, none]).getD 1 0 =
      (if (1 : ℕ) = 0 then 0 else (dryStreakAux 0 [some 1, none]).getD 0 0) + 1 ∧
    (colVals (era5_p_df 0 2 (some [(0, [some 2]), (2, [some 0])])) "P").getD 1 (some 0) =
      none :=
  ⟨dry_streak_nan_extends.1 [some 1, none] 1 (by decide) (by decide),
   dry_streak_nan_extends.2 0 2 [(0, [some 2]), (2, [some 0])] 1 (by decide) (by decide)
     (by decide)⟩

/-- C9: a site whose registry entry lacks the longitude key raises KeyError
inside the driver's per-site try block, which catches it and emits nothing
for that site: compiling a registry containing the malformed site is the
same as compiling the registry without it, so every other site is processed
and only the malformed one is excluded from the final output. -/
theorem driver_skips_malformed_site :
    ∀ (ow : Bool) (req gtCols : List String) (gtW : ℕ) (ii : Bool)
      (Q : String → List String → Option Raw) (gt : List GtRow)
      (r1 r2 : List (String × SiteMeta)) (b : String) (mb : SiteMeta),
      mb.longitude = none →
      compile_data ow req gtCols gtW ii Q gt (r1 ++ (b, mb) :: r2) =
        compile_data ow req gtCols gtW ii Q gt (r1 ++ r2) := by
  intro ow req gtCols gtW ii Q gt r1 r2 b mb hmb
  unfold compile_data
  rw [List.foldlM_append, List.foldlM_append]
  apply except_bind_congr
  intro acc
  rw [List.foldlM_cons]
  rw [compile_step_keyError _ _ _ _ _ _ _ _ hmb]
  rfl

theorem driver_skips_malformed_site_witness :
    compile_data false ["P"] ["SITE", "SWC"] 1 false (fun _ _ => some []) []
        ([("A", ⟨some 0, some 0, some 0, some 1⟩)] ++
          ("B", ⟨none, some 0, some 0, some 1⟩) :: [("C", ⟨some 0, some 0, some 0, some 1⟩)]) =
      compile_data false ["P"] ["SITE", "SWC"] 1 false (fun _ _ => some []) []
        ([("A", ⟨some 0, some 0, some 0, some 1⟩)] ++ [("C", ⟨some 0, some 0, some 0, some 1⟩)]) ∧
    (compile_data false ["P"] ["SITE", "SWC"] 1 false (fun _ _ => some []) []
        ([("A", ⟨some 0, some 0, some 0, some 1⟩)] ++
          [("C", ⟨some 0, some 0, some 0, some 1⟩)])).map (List.map Prod.fst) =
      .ok ["A", "C"] :=
  ⟨driver_skips_malformed_site false ["P"] ["SITE", "SWC"] 1 false (fun _ _ => some []) []
      [("A", ⟨some 0, some 0, some 0, some 1⟩)] [("C", ⟨some 0, some 0, some 0, some 1⟩)]
      "B" ⟨none, some 0, some 0, some 1⟩ rfl,
   rfl⟩
